import Mathlib

/-!
Verification development for the CPU core of the gba repository (src/cpu.rs
with src/bus.rs). The Rust code is shallowly embedded: `u8`/`u16` values are `Nat`
with explicit `% 256` / `% 65536` where the machine width matters, native
endianness is taken to be little-endian (the `to_ne_bytes` index 0 is the low
byte), and Rust integer arithmetic that can overflow is modelled with the
release-mode wrapping semantics. `todo!()` and `panic!()` sites are modelled
as an explicit `panicked` result carrying the state at the panic point.
In addition to the cycle counter of the source, the state carries four ghost
counters (`regR`, `regW`, `memR`, `memW`) that count architectural register
accesses and bus memory accesses; they are instrumentation only and no
source behaviour depends on them.
-/

/-- CPU execution mode, from `enum CpuMode` in cpu.rs. -/
inductive CpuMode
  | Run
  | Halt
  | DebugGpu
  | Shutdown
deriving DecidableEq

/-- The CPU state of `struct Cpu` in cpu.rs together with the bus RAM of
`struct Bus` in bus.rs. `regs i` is the 16-bit register cell `registers[i]`;
per the `impl Read for V16` accessors the cells are 0=BC, 1=DE, 2=HL, 3=AF,
4=PC, 5=SP (only indices 0..5 are ever used). `mem a` is the RAM byte at
address `a` (only addresses below 65536 are ever used). `cycles` is the
cycle counter. `regR`/`regW`/`memR`/`memW` are ghost instrumentation
counters for register reads/writes through `Cpu::r`/`Cpu::w` and bus memory
reads/writes. -/
structure Cpu where
  regs : Nat → Nat
  mem : Nat → Nat
  cycles : Nat
  mode : CpuMode
  regR : Nat
  regW : Nat
  memR : Nat
  memW : Nat

/-- Low byte of a 16-bit cell: `to_ne_bytes()[0]` on a little-endian host. -/
def leftByte (w : Nat) : Nat := w % 256

/-- High byte of a 16-bit cell: `to_ne_bytes()[1]` on a little-endian host. -/
def rightByte (w : Nat) : Nat := w / 256 % 256

/-- Overwrite register cell `i` with `v` (an assignment `registers[i] = v`). -/
def updReg (c : Cpu) (i : Nat) (v : Nat) : Cpu :=
  { c with regs := fun j => if j = i then v else c.regs j }

/-- `Bus::fetch`: read one RAM byte. The ghost counter `memR` records the
memory read; the source charges no cycles here. -/
def Cpu.busFetch (c : Cpu) (a : Nat) : Nat × Cpu :=
  (c.mem a % 256, { c with memR := c.memR + 1 })

/-- `Bus::write_mem`: overwrite one RAM byte. The ghost counter `memW`
records the memory write; the source charges no cycles here. -/
def Cpu.busWrite (c : Cpu) (a v : Nat) : Cpu :=
  { c with mem := fun x => if x = a then v % 256 else c.mem x,
           memW := c.memW + 1 }

/-- The 8-bit register names of `enum V8` in cpu.rs. -/
inductive V8
  | A
  | B
  | C
  | D
  | E
  | F
  | H
  | L
deriving DecidableEq

/-- `impl Read for V8`: B,C are the low,high bytes of cell 0; D,E of cell 1;
H,L of cell 2; A,F of cell 3. -/
def V8.read (r : V8) (c : Cpu) : Nat :=
  match r with
  | .B => leftByte (c.regs 0)
  | .C => rightByte (c.regs 0)
  | .D => leftByte (c.regs 1)
  | .E => rightByte (c.regs 1)
  | .H => leftByte (c.regs 2)
  | .L => rightByte (c.regs 2)
  | .A => leftByte (c.regs 3)
  | .F => rightByte (c.regs 3)

/-- `set_left` closure in `impl Write for V8`: compose a cell value from the
new low byte `v` and the current high byte of cell `i`. -/
def setLeft (c : Cpu) (i : Nat) (v : Nat) : Nat :=
  v % 256 + 256 * rightByte (c.regs i)

/-- `set_right` closure in `impl Write for V8`: compose a cell value from the
current low byte of cell `i` and the new high byte `v`. -/
def setRight (c : Cpu) (i : Nat) (v : Nat) : Nat :=
  leftByte (c.regs i) + 256 * (v % 256)

/-- `impl Write for V8`. Note that every arm of the source stores its result
into `cpu.registers[0]` (the BC cell), even though the composed value is
computed from the cell the register name belongs to; this embedding
reproduces that behaviour exactly. -/
def V8.write (r : V8) (c : Cpu) (v : Nat) : Cpu :=
  match r with
  | .B => updReg c 0 (setLeft c 0 v)
  | .C => updReg c 0 (setRight c 0 v)
  | .D => updReg c 0 (setLeft c 1 v)
  | .E => updReg c 0 (setRight c 1 v)
  | .H => updReg c 0 (setLeft c 2 v)
  | .L => updReg c 0 (setRight c 2 v)
  | .A => updReg c 0 (setLeft c 3 v)
  | .F => updReg c 0 (setRight c 3 v)

/-- The 16-bit register names of `enum V16` in cpu.rs. -/
inductive V16
  | AF
  | BC
  | DE
  | HL
  | PC
  | SP
deriving DecidableEq

/-- Cell index of a 16-bit register per `impl Read for V16`. -/
def V16.cell : V16 → Nat
  | .BC => 0
  | .DE => 1
  | .HL => 2
  | .AF => 3
  | .PC => 4
  | .SP => 5

/-- `impl Read for V16`. The `% 65536` keeps the u16 width explicit. -/
def V16.read (r : V16) (c : Cpu) : Nat := c.regs r.cell % 65536

/-- `impl Write for V16`. -/
def V16.write (r : V16) (c : Cpu) (v : Nat) : Cpu :=
  updReg c r.cell (v % 65536)

/-- `impl From<u8> for V16`: 0..5 map to BC, DE, HL, AF, PC, SP and any
other value panics (modelled as `none`). -/
def V16.fromNum (v : Nat) : Option V16 :=
  match v with
  | 0 => some .BC
  | 1 => some .DE
  | 2 => some .HL
  | 3 => some .AF
  | 4 => some .PC
  | 5 => some .SP
  | _ => none

/-- `Cpu::incr_cycles`. -/
def Cpu.incr_cycles (c : Cpu) : Cpu := { c with cycles := c.cycles + 1 }

/-- `Cpu::r` instantiated at `V8`: charge one cycle, then read. The ghost
counter `regR` records the architectural register read. -/
def Cpu.r8 (c : Cpu) (reg : V8) : Nat × Cpu :=
  let c2 := { c with cycles := c.cycles + 1, regR := c.regR + 1 }
  (reg.read c2, c2)

/-- `Cpu::r` instantiated at `V16`. -/
def Cpu.r16 (c : Cpu) (reg : V16) : Nat × Cpu :=
  let c2 := { c with cycles := c.cycles + 1, regR := c.regR + 1 }
  (reg.read c2, c2)

/-- `Cpu::w` instantiated at `V8`: charge one cycle, then write. The ghost
counter `regW` records the architectural register write. -/
def Cpu.w8 (c : Cpu) (reg : V8) (v : Nat) : Cpu :=
  let c2 := { c with cycles := c.cycles + 1, regW := c.regW + 1 }
  reg.write c2 v

/-- `Cpu::w` instantiated at `V16`. -/
def Cpu.w16 (c : Cpu) (reg : V16) (v : Nat) : Cpu :=
  let c2 := { c with cycles := c.cycles + 1, regW := c.regW + 1 }
  reg.write c2 v

/-- `Cpu::write_mem8`: two register reads (two cycles), then a raw bus
write (no cycle). -/
def Cpu.write_mem8 (c : Cpu) (addr : V16) (content : V8) : Cpu :=
  let (a, c) := c.r16 addr
  let (v, c) := c.r8 content
  c.busWrite a v

/-- `Cpu::write_mem16_raw`: a raw bus write, charging no cycles. -/
def Cpu.write_mem16_raw (c : Cpu) (addr content : Nat) : Cpu :=
  c.busWrite addr content

/-- `Cpu::pc`: read the program counter through `Cpu::r` (one cycle). -/
def Cpu.pc (c : Cpu) : Nat × Cpu := c.r16 .PC

/-- `Cpu::next_byte`: fetch the byte at the current PC. The doc comment in the
source says PC will be incremented by 1, but the implementation never
advances PC; this embedding reproduces the implementation. -/
def Cpu.next_byte (c : Cpu) : Nat × Cpu :=
  let (pcv, c) := c.pc
  c.busFetch pcv

/-- `Cpu::next_word`: two `next_byte` fetches composed little-endian
(`from_ne_bytes` with index 0 the low byte). -/
def Cpu.next_word (c : Cpu) : Nat × Cpu :=
  let (b1, c) := c.next_byte
  let (b2, c) := c.next_byte
  (b1 + 256 * b2, c)

/-- `Cpu::subtract_flag`: true when bit 7 (mask 0x80) of F is set. -/
def Cpu.subtract_flag (c : Cpu) : Bool × Cpu :=
  let (f, c) := c.r8 .F
  (f &&& 0x80 != 0, c)

/-- `Cpu::zero_flag`: true when bit 6 (mask 0x40) of F is set. -/
def Cpu.zero_flag (c : Cpu) : Bool × Cpu :=
  let (f, c) := c.r8 .F
  (f &&& 0x40 != 0, c)

/-- `Cpu::half_carry_flag`: true when bit 5 (mask 0x20) of F is set. -/
def Cpu.half_carry_flag (c : Cpu) : Bool × Cpu :=
  let (f, c) := c.r8 .F
  (f &&& 0x20 != 0, c)

/-- `Cpu::carry_flag`: true when bit 4 (mask 0x10) of F is set. -/
def Cpu.carry_flag (c : Cpu) : Bool × Cpu :=
  let (f, c) := c.r8 .F
  (f &&& 0x10 != 0, c)

/-- Common body of the four `Cpu::set_*` flag helpers: read F directly
(`flag_reg.read`, no cycle), then write `current | mask` when the argument
is true and `current ^ mask` when it is false, directly through
`flag_reg.write` (no cycle). The false branch is an XOR, exactly as in the
source. -/
def Cpu.setFlagMask (c : Cpu) (mask : Nat) (v : Bool) : Cpu :=
  let current := V8.read .F c
  if v then V8.write .F c (current ||| mask)
  else V8.write .F c (current ^^^ mask)

/-- `Cpu::set_subtract` (mask 0x80). -/
def Cpu.set_subtract (c : Cpu) (v : Bool) : Cpu := c.setFlagMask 0x80 v

/-- `Cpu::set_carry` (mask 0x10). -/
def Cpu.set_carry (c : Cpu) (v : Bool) : Cpu := c.setFlagMask 0x10 v

/-- `Cpu::set_half_carry` (mask 0x20). -/
def Cpu.set_half_carry (c : Cpu) (v : Bool) : Cpu := c.setFlagMask 0x20 v

/-- `Cpu::set_half_carry_add`: set/toggle mask 0x20 from the nibble sum. -/
def Cpu.set_half_carry_add (c : Cpu) (v1 v2 : Nat) : Cpu :=
  c.setFlagMask 0x20 (decide (15 < v1 % 16 + v2 % 16))

/-- `Cpu::set_half_carry_sub`: set/toggle mask 0x20 from the nibble borrow. -/
def Cpu.set_half_carry_sub (c : Cpu) (v1 v2 : Nat) : Cpu :=
  c.setFlagMask 0x20 (decide (v1 % 16 < v2 % 16))

/-- `Cpu::set_zero` (mask 0x40). -/
def Cpu.set_zero (c : Cpu) (v : Bool) : Cpu := c.setFlagMask 0x40 v

/-- `Cpu::rotate_left_circle`. -/
def Cpu.rotate_left_circle (c : Cpu) (v : Nat) : Nat × Cpu :=
  let c := c.set_carry (v &&& 0xf0 != 0)
  let c := c.set_zero (v == 0)
  let c := c.set_subtract false
  let c := c.set_half_carry false
  ((v * 2) % 256 ||| v / 128, c)

/-- `Cpu::rotate_left`. -/
def Cpu.rotate_left (c : Cpu) (v : Nat) : Nat × Cpu :=
  let c := c.set_carry (v &&& 0xf0 != 0)
  let c := c.set_zero (v == 0)
  let c := c.set_subtract false
  let c := c.set_half_carry false
  ((v * 2) % 256, c)

/-- `Cpu::rotate_right_circle`. The carry test masks with `0x0` exactly as
the source does. -/
def Cpu.rotate_right_circle (c : Cpu) (v : Nat) : Nat × Cpu :=
  let c := c.set_carry (v &&& 0x0 != 0)
  let c := c.set_zero (v == 0)
  let c := c.set_subtract false
  let c := c.set_half_carry false
  (v / 2 ||| v % 2 * 128, c)

/-- `Cpu::rotate_right`. The carry test masks with `0x0` exactly as the
source does. -/
def Cpu.rotate_right (c : Cpu) (v : Nat) : Nat × Cpu :=
  let c := c.set_carry (v &&& 0x0 != 0)
  let c := c.set_zero (v == 0)
  let c := c.set_subtract false
  let c := c.set_half_carry false
  (v / 2, c)

/-- The instruction kinds of `enum Instruction`, one per arm of the
`Cpu::execute` match in cpu.rs. -/
inductive Instruction
  | Nop
  | Load16Mem
  | Store8Mem
  | Decrement16
  | Increment16
  | Increment8
  | Decrement8
  | Load8Mem
  | RotateLeftCircle
  | StoreSP
  | Add16toHL
  | RotateRightCircle
  | RotateLeft
  | RotateRight
  | Stop
  | JumpRelative
  | StoreHlIncr
  | StoreHlDecr
  | Daa
  | Load8MemHlIncr
  | Load8MemHlDecr
  | ComplementA
  | IncMemHl
  | DecMemHl
  | StoreXMemHl
  | SetCarryFlag
  | FlipCarryFlag
  | Load8into8
  | Load16Meminto8
  | Halt
  | Add8toA
  | AddMemToA
  | Add8AndFlagToA
  | AddMemHlAndFlagToA
  | Sub8fromA
  | SubMemToA
  | Sub8AndFlagToA
  | SubMemHlAndFlagToA
  | And8A
  | AndMemHlA
  | Xor8A
  | XorMemHlA
  | Or8A
  | OrMemHlA
  | Compare8A
  | CompareMemHlA
  | ReturnIfFlag
  | Pop16
  | JumpIfFlag
  | Jump16
  | CallIfFlag
  | Push16
  | Add8ImmToA
  | Sub8ImmToA
  | And8ImmToA
  | Or8ImmToA
  | CallN
  | Return
  | ReturnInterrupt
  | Call
  | AddImmAndFlagToA
  | SubImmAndFlagToA
  | XorImmToA
  | CompareImmToA
  | StoreAToIoImm
  | ReadAFromIoImm
  | StoreAToIoC
  | ReadAFromIoC
  | DisableInterrupts
  | AddImmAsSignedToSp
  | StoreAinMemHl
  | LoadAfromMemHl
  | LoadSignedImmPlusSpInHl
  | LoadHlinSp
  | EnableInterrupts
  | TwoByteInstruction
deriving DecidableEq

/-- Modelled from the spec: the `AddressMove` outcome type of the missing
instruction.rs module. `Add k` advances PC by k bytes relative to its value
before the instruction; `To a` sets PC to the absolute address a. -/
inductive AddressMove
  | Add : Nat → AddressMove
  | To : Nat → AddressMove
deriving DecidableEq

/-- Modelled from the spec: `AddressMove::apply`, committing the PC update
relative to the pre-instruction PC (16-bit wrapping). -/
def AddressMove.apply (m : AddressMove) (pcv : Nat) : Nat :=
  match m with
  | .Add k => (pcv + k) % 65536
  | .To a => a % 65536

/-- Result of running the executor on one instruction: either an
`AddressMove` with the updated state, or a Rust panic (`todo!()` /
`panic!()`) carrying the state at the panic point. -/
inductive ExecResult
  | ok : AddressMove → Cpu → ExecResult
  | panicked : Cpu → ExecResult

/-- State component of an executor result (at the panic point for a panic). -/
def ExecResult.state : ExecResult → Cpu
  | .ok _ c => c
  | .panicked c => c

/-- True when the executor returned normally. -/
def ExecResult.isOk : ExecResult → Bool
  | .ok _ _ => true
  | .panicked _ => false

/-- The low-nibble 8-bit operand table `0=B 1=C 2=D 3=E 4=H 5=L 7=A` shared
by the Add8toA, Sub8fromA, And8A, Or8A and Compare8A arms; any other value
panics in the source. -/
def r8FromLow (n : Nat) : Option V8 :=
  match n with
  | 0 => some .B
  | 1 => some .C
  | 2 => some .D
  | 3 => some .E
  | 4 => some .H
  | 5 => some .L
  | 7 => some .A
  | _ => none

/-- The high-nibble 8-bit operand table `8=B 9=C A=D B=E C=H D=L F=A` shared
by the Add8AndFlagToA, Sub8AndFlagToA and Xor8A arms. -/
def r8FromHigh (n : Nat) : Option V8 :=
  match n with
  | 0x8 => some .B
  | 0x9 => some .C
  | 0xA => some .D
  | 0xB => some .E
  | 0xC => some .H
  | 0xD => some .L
  | 0xF => some .A
  | _ => none

/-- `Cpu::execute` from cpu.rs, arm by arm in source order. `n0` and `n1`
are the two nibbles of the opcode byte. Wrapping `u8`/`u16` arithmetic is
written with explicit `% 256` / `% 65536`. -/
def Cpu.execute (c : Cpu) (instruction : Instruction) (op : Nat) : ExecResult :=
  let n0 := op / 16 % 16
  let n1 := op % 16
  match instruction with
  | .Nop => .ok (.Add 1) c
  | .Load16Mem =>
    let (new, c) := c.next_word
    match V16.fromNum n0 with
    | none => .panicked c
    | some r => .ok (.Add 3) (c.w16 r new)
  | .Store8Mem =>
    let addressOpt : Option V16 :=
      match n0, n1 with
      | 0x0, 0x2 => some .BC
      | 0x1, 0x2 => some .DE
      | 0x7, _ => some .HL
      | _, _ => none
    match addressOpt with
    | none => .panicked c
    | some address =>
      let contentOpt : Option V8 :=
        match n0, n1 with
        | 0x0, 0x2 => some .A
        | 0x1, 0x2 => some .A
        | 0x2, 0x2 => some .A
        | 0x7, 0x0 => some .B
        | 0x7, 0x1 => some .C
        | 0x7, 0x2 => some .D
        | 0x7, 0x3 => some .E
        | 0x7, 0x4 => some .H
        | 0x7, 0x5 => some .L
        | 0x7, 0x7 => some .A
        | _, _ => none
      match contentOpt with
      | none => .panicked c
      | some content => .ok (.Add 1) (c.write_mem8 address content)
  | .Decrement16 =>
    let oldRegOpt : Option V16 :=
      match n0 with
      | 0x0 => some .BC
      | 0x1 => some .DE
      | 0x2 => some .HL
      | 0x3 => some .SP
      | _ => none
    match oldRegOpt with
    | none => .panicked c
    | some old_reg =>
      let (old, c) := c.r16 old_reg
      let c := c.set_zero (old == 1)
      let c := c.set_subtract true
      let c := c.set_half_carry (old == 0x100)
      let c := c.w16 old_reg ((old + 65535) % 65536)
      .ok (.Add 1) c
  | .Increment16 =>
    match V16.fromNum n0 with
    | none => .panicked c
    | some r =>
      let (old, c) := c.r16 r
      let c := c.set_zero (old == 65535)
      let c := c.set_subtract false
      let c := c.set_half_carry (old == 0xff)
      let c := c.w16 r ((old + 1) % 65536)
      .ok (.Add 1) c
  | .Increment8 =>
    let regOpt : Option V8 :=
      match n0, n1 with
      | 0x0, 0x4 => some .B
      | 0x1, 0x4 => some .D
      | 0x2, 0x4 => some .H
      | 0x0, 0xC => some .C
      | 0x1, 0xC => some .E
      | 0x2, 0xC => some .L
      | 0x3, 0xC => some .A
      | _, _ => none
    match regOpt with
    | none => .panicked c
    | some reg =>
      let (old, c) := c.r8 reg
      let c := c.set_zero (old == 255)
      let c := c.set_subtract false
      let c := c.set_half_carry (old == 0xf)
      let c := c.w8 reg ((old + 1) % 256)
      .ok (.Add 1) c
  | .Decrement8 =>
    let regOpt : Option V8 :=
      match n0, n1 with
      | 0x0, 0x5 => some .B
      | 0x1, 0x5 => some .D
      | 0x2, 0x5 => some .H
      | 0x0, 0xD => some .C
      | 0x1, 0xD => some .E
      | 0x2, 0xD => some .L
      | 0x3, 0xD => some .A
      | _, _ => none
    match regOpt with
    | none => .panicked c
    | some reg =>
      let (old, c) := c.r8 reg
      let c := c.set_zero (old == 1)
      let c := c.set_subtract true
      let c := c.set_half_carry (old == 0x10)
      let c := c.w8 reg ((old + 255) % 256)
      .ok (.Add 1) c
  | .Load8Mem =>
    let (n, c) := c.next_byte
    let regOpt : Option V8 :=
      match n0, n1 with
      | 0x0, 0x6 => some .B
      | 0x1, 0x6 => some .D
      | 0x2, 0x6 => some .H
      | 0x0, 0xE => some .C
      | 0x1, 0xE => some .E
      | 0x2, 0xE => some .L
      | 0x3, 0xE => some .A
      | _, _ => none
    match regOpt with
    | none => .panicked c
    | some reg => .ok (.Add 2) (c.w8 reg n)
  | .RotateLeftCircle =>
    let (a, c) := c.r8 .A
    let (a2, c) := c.rotate_left_circle a
    .ok (.Add 1) (c.w8 .A a2)
  | .StoreSP =>
    let (pos, c) := c.next_word
    let (content, c) := c.r16 .SP
    let c := c.write_mem16_raw pos (leftByte content)
    let c := c.write_mem16_raw ((pos + 1) % 65536) (rightByte content)
    .ok (.Add 1) c
  | .Add16toHL =>
    let (current, c) := c.r16 .HL
    let addRegOpt : Option V16 :=
      match n0 with
      | 0 => some .BC
      | 1 => some .DE
      | 2 => some .HL
      | 3 => some .SP
      | _ => none
    match addRegOpt with
    | none => .panicked c
    | some addReg =>
      let (add, c) := c.r16 addReg
      let new := (current + add) % 65536
      let c := c.set_carry (decide (65536 ≤ current + add))
      let c := c.set_subtract false
      let c := c.set_half_carry ((current ^^^ add ^^^ new) &&& 0x1000 != 0)
      let c := c.w16 .HL new
      .ok (.Add 1) c
  | .RotateRightCircle =>
    let (a, c) := c.r8 .A
    let (a2, c) := c.rotate_right_circle a
    .ok (.Add 1) (c.w8 .A a2)
  | .RotateLeft =>
    let (a, c) := c.r8 .A
    let (a2, c) := c.rotate_left a
    .ok (.Add 1) (c.w8 .A a2)
  | .RotateRight =>
    let (a, c) := c.r8 .A
    let (a2, c) := c.rotate_right a
    .ok (.Add 1) (c.w8 .A a2)
  | .Stop => .panicked c
  | .JumpRelative =>
    let (distance, c) := c.next_byte
    let (old, c) := c.pc
    match n0, n1 with
    | 0x1, 0x8 => .ok (.To ((old + distance) % 65536)) c
    | 0x2, 0x8 =>
      let (z, c) := c.zero_flag
      if z then .ok (.To ((old + distance) % 65536)) c else .ok (.Add 2) c
    | 0x3, 0x8 =>
      let (cf, c) := c.carry_flag
      if cf then .ok (.To ((old + distance) % 65536)) c else .ok (.Add 2) c
    | 0x2, 0x0 =>
      let (z, c) := c.zero_flag
      if !z then .ok (.To ((old + distance) % 65536)) c else .ok (.Add 2) c
    | 0x3, 0x0 =>
      let (cf, c) := c.carry_flag
      if !cf then .ok (.To ((old + distance) % 65536)) c else .ok (.Add 2) c
    | _, _ => .panicked c
  | .StoreHlIncr =>
    let c := c.write_mem8 .HL .A
    let (hl, c) := c.r16 .HL
    let c := c.w16 .HL ((hl + 1) % 65536)
    .ok (.Add 1) c
  | .StoreHlDecr =>
    let c := c.write_mem8 .HL .A
    let (hl, c) := c.r16 .HL
    let c := c.w16 .HL ((hl + 65535) % 65536)
    .ok (.Add 1) c
  | .Daa =>
    let (a, c) := c.r8 .A
    let (hf, c) := c.half_carry_flag
    let adjust0 := if hf then 0 ||| 0x06 else 0
    let (cf, c) := c.carry_flag
    let adjust1 := if cf then adjust0 ||| 0x60 else adjust0
    let (sf, c) := c.subtract_flag
    let adjust2 := if sf && decide (9 < a % 16) then adjust1 ||| 0x06 else adjust1
    let adjust := if sf && decide (0xa0 ≤ a) then adjust2 ||| 0x60 else adjust2
    let res := (a + adjust) % 256
    let c := c.w8 .A res
    let c := c.set_carry (decide (256 ≤ a + adjust))
    let c := c.set_zero (res == 0)
    let c := c.set_half_carry false
    .ok (.Add 1) c
  | .Load8MemHlIncr =>
    let (position, c) := c.r16 .HL
    let (content, c) := c.busFetch position
    let c := c.w8 .A content
    let c := c.w16 .HL ((position + 1) % 65536)
    .ok (.Add 1) c
  | .Load8MemHlDecr =>
    let (position, c) := c.r16 .HL
    let (content, c) := c.busFetch position
    let c := c.w8 .A content
    let c := c.w16 .HL ((position + 65535) % 65536)
    .ok (.Add 1) c
  | .ComplementA =>
    let (old, c) := c.r8 .A
    let new := old ^^^ 255
    let c := c.w8 .A new
    let c := c.set_half_carry true
    let c := c.set_subtract true
    .ok (.Add 1) c
  | .IncMemHl =>
    let (hl, c) := c.r16 .HL
    let (n, c) := c.busFetch hl
    let res := (n + 1) % 256
    let c := c.write_mem16_raw hl res
    let c := c.set_carry (decide (256 ≤ n + 1))
    let c := c.set_subtract false
    let c := c.set_half_carry (n == 0xf)
    let c := c.write_mem16_raw hl res
    .ok (.Add 1) c
  | .DecMemHl =>
    let (hl, c) := c.r16 .HL
    let (n, c) := c.busFetch hl
    let res := (n + 255) % 256
    let c := c.write_mem16_raw hl res
    let c := c.set_carry (decide (n < 1))
    let c := c.set_subtract true
    let c := c.set_half_carry (n == 0xf)
    let c := c.write_mem16_raw hl res
    .ok (.Add 1) c
  | .StoreXMemHl =>
    let (x, c) := c.next_byte
    let (hl, c) := c.r16 .HL
    let c := c.write_mem16_raw hl x
    .ok (.Add 1) c
  | .SetCarryFlag =>
    let c := c.set_carry true
    let c := c.set_half_carry false
    let c := c.set_zero false
    .ok (.Add 1) c
  | .FlipCarryFlag =>
    let (current, c) := c.carry_flag
    let c := c.set_carry (!current)
    .ok (.Add 1) c
  | .Load8into8 =>
    let intoOpt : Option V8 :=
      match n0 with
      | 4 =>
        match n1 with
        | 0 | 1 | 2 | 3 | 4 | 5 | 7 => some .B
        | 8 | 9 | 0xA | 0xB | 0xC | 0xD | 0xF => some .C
        | _ => none
      | 5 =>
        match n1 with
        | 0 | 1 | 2 | 3 | 4 | 5 | 7 => some .D
        | 8 | 9 | 0xA | 0xB | 0xC | 0xD | 0xF => some .E
        | _ => none
      | 6 =>
        match n1 with
        | 0 | 1 | 2 | 3 | 4 | 5 | 7 => some .H
        | 8 | 9 | 0xA | 0xB | 0xC | 0xD | 0xF => some .L
        | _ => none
      | 7 => some .A
      | _ => none
    match intoOpt with
    | none => .panicked c
    | some into =>
      let fromOpt : Option V8 :=
        match n1 with
        | 0 => some .B
        | 1 => some .C
        | 2 => some .D
        | 3 => some .E
        | 4 => some .H
        | 5 => some .L
        | 7 => some .A
        | 8 => some .B
        | 9 => some .C
        | 0xA => some .D
        | 0xB => some .E
        | 0xC => some .H
        | 0xD => some .L
        | 0xF => some .A
        | _ => none
      match fromOpt with
      | none => .panicked c
      | some fromReg =>
        let (from_value, c) := c.r8 fromReg
        .ok (.Add 1) (c.w8 into from_value)
  | .Load16Meminto8 =>
    let addrRegOpt : Option V16 :=
      match n0, n1 with
      | 0x0, 0xA => some .BC
      | 0x1, 0xA => some .DE
      | 0x4, 0x6 | 0x5, 0x6 | 0x6, 0x6 => some .HL
      | 0x4, 0xE | 0x5, 0xE | 0x6, 0xE | 0x7, 0xE => some .HL
      | _, _ => none
    match addrRegOpt with
    | none => .panicked c
    | some addrReg =>
      let intoOpt : Option V8 :=
        match n0, n1 with
        | 0x0, 0xA | 0x1, 0xA => some .A
        | 0x4, 0x6 => some .B
        | 0x5, 0x6 => some .D
        | 0x6, 0x6 => some .H
        | 0x4, 0xE => some .C
        | 0x5, 0xE => some .E
        | 0x6, 0xE => some .L
        | 0x7, 0xE => some .A
        | _, _ => none
      match intoOpt with
      | none => .panicked c
      | some into =>
        let (addr, c) := c.r16 addrReg
        let (content, c) := c.busFetch addr
        .ok (.Add 1) (c.w8 into content)
  | .Halt => .panicked c
  | .Add8toA =>
    match r8FromLow n1 with
    | none => .panicked c
    | some reg =>
      let (a, c) := c.r8 .A
      let (add, c) := c.r8 reg
      let res := (a + add) % 256
      let c := c.set_carry (decide (256 ≤ a + add))
      let c := c.set_zero (res == 0)
      let c := c.set_subtract false
      let c := c.set_half_carry_add a add
      let c := c.w8 .A res
      .ok (.Add 1) c
  | .AddMemToA =>
    let (hl, c) := c.r16 .HL
    let (content, c) := c.busFetch hl
    let (a, c) := c.r8 .A
    let res := (a + content) % 256
    let c := c.set_carry (decide (256 ≤ a + content))
    let c := c.set_zero (res == 0)
    let c := c.set_subtract false
    let c := c.set_half_carry_add a content
    let c := c.w8 .A res
    .ok (.Add 1) c
  | .Add8AndFlagToA =>
    match r8FromHigh n1 with
    | none => .panicked c
    | some add_reg =>
      let (adder, c) := c.r8 add_reg
      let (cf, c) := c.carry_flag
      let carry := if cf then 1 else 0
      let (a, c) := c.r8 .A
      let temp := (a + adder) % 256
      let res := (temp + carry) % 256
      let c := c.set_carry (decide (256 ≤ a + adder) || decide (256 ≤ temp + carry))
      let c := c.set_zero (res == 0)
      let c := c.set_subtract false
      let c := c.set_half_carry_add a ((adder + carry) % 256)
      let c := c.w8 .A res
      .ok (.Add 1) c
  | .AddMemHlAndFlagToA =>
    let (position, c) := c.r16 .HL
    let (adder, c) := c.busFetch position
    let (cf, c) := c.carry_flag
    let carry := if cf then 1 else 0
    let (a, c) := c.r8 .A
    let temp := (a + adder) % 256
    let res := (temp + carry) % 256
    let c := c.set_carry (decide (256 ≤ a + adder) || decide (256 ≤ temp + carry))
    let c := c.set_zero (res == 0)
    let c := c.set_subtract false
    let c := c.set_half_carry_add a ((adder + carry) % 256)
    .ok (.Add 1) c
  | .Sub8fromA =>
    match r8FromLow n1 with
    | none => .panicked c
    | some sub_reg =>
      let (sub, c) := c.r8 sub_reg
      let (a, c) := c.r8 .A
      let res := (a + 256 - sub % 256) % 256
      let c := c.set_carry (decide (a < sub))
      let c := c.set_zero (res == 0)
      let c := c.set_subtract true
      let c := c.set_half_carry_sub a sub
      .ok (.Add 1) c
  | .SubMemToA =>
    let (hl, c) := c.r16 .HL
    let (content, c) := c.busFetch hl
    let (a, c) := c.r8 .A
    let res := (a + 256 - content % 256) % 256
    let c := c.set_carry (decide (a < content))
    let c := c.set_zero (res == 0)
    let c := c.set_subtract true
    let c := c.set_half_carry_sub a content
    let c := c.w8 .A res
    .ok (.Add 1) c
  | .Sub8AndFlagToA =>
    match r8FromHigh n1 with
    | none => .panicked c
    | some sub_reg =>
      let (content, c) := c.r8 sub_reg
      let (a, c) := c.r8 .A
      let res := (a + 256 - content % 256) % 256
      let c := c.set_carry (decide (a < content))
      let c := c.set_zero (res == 0)
      let c := c.set_subtract true
      let c := c.set_half_carry_sub a content
      let c := c.w8 .A res
      .ok (.Add 1) c
  | .SubMemHlAndFlagToA =>
    let (hl, c) := c.r16 .HL
    let (content, c) := c.busFetch hl
    let (a, c) := c.r8 .A
    let res := (a + 256 - content % 256) % 256
    let c := c.set_carry (decide (a < content))
    let c := c.set_zero (res == 0)
    let c := c.set_subtract true
    let c := c.set_half_carry_sub a content
    let c := c.w8 .A res
    .ok (.Add 1) c
  | .And8A =>
    match r8FromLow n1 with
    | none => .panicked c
    | some secReg =>
      let (sec, c) := c.r8 secReg
      let (a, c) := c.r8 .A
      let res := a &&& sec
      let c := c.set_zero (res == 0)
      let c := c.set_subtract false
      let c := c.set_half_carry true
      let c := c.set_carry false
      let c := c.w8 .A res
      .ok (.Add 1) c
  | .AndMemHlA =>
    let (position, c) := c.r16 .HL
    let (content, c) := c.busFetch position
    let (a, c) := c.r8 .A
    let res := a &&& content
    let c := c.set_zero (res == 0)
    let c := c.set_subtract false
    let c := c.set_half_carry true
    let c := c.set_carry false
    let c := c.w8 .A res
    .ok (.Add 1) c
  | .Xor8A =>
    match r8FromHigh n1 with
    | none => .panicked c
    | some xorReg =>
      let (xor, c) := c.r8 xorReg
      let (a, c) := c.r8 .A
      let res := a ^^^ xor
      let c := c.set_zero (res == 0)
      let c := c.set_subtract false
      let c := c.set_half_carry false
      let c := c.set_carry false
      let c := c.w8 .A res
      .ok (.Add 1) c
  | .XorMemHlA =>
    let (hl, c) := c.r16 .HL
    let (xor, c) := c.busFetch hl
    let (a, c) := c.r8 .A
    let res := a ^^^ xor
    let c := c.set_zero (res == 0)
    let c := c.set_subtract false
    let c := c.set_half_carry false
    let c := c.set_carry false
    let c := c.w8 .A res
    .ok (.Add 1) c
  | .Or8A =>
    match r8FromLow n1 with
    | none => .panicked c
    | some orReg =>
      let (orv, c) := c.r8 orReg
      let (a, c) := c.r8 .A
      let res := a ||| orv
      let c := c.set_zero (res == 0)
      let c := c.set_subtract false
      let c := c.set_half_carry false
      let c := c.set_carry false
      let c := c.w8 .A res
      .ok (.Add 1) c
  | .OrMemHlA =>
    let (position, c) := c.r16 .HL
    let (content, c) := c.busFetch position
    let (a, c) := c.r8 .A
    let res := a ||| content
    let c := c.set_zero (res == 0)
    let c := c.set_subtract false
    let c := c.set_half_carry false
    let c := c.set_carry false
    let c := c.w8 .A res
    .ok (.Add 1) c
  | .Compare8A =>
    match r8FromLow n1 with
    | none => .panicked c
    | some cmpReg =>
      let (a, c) := c.r8 .A
      let (cmp, c) := c.r8 cmpReg
      let c := c.set_zero (a == cmp)
      let c := c.set_half_carry_sub a cmp
      let c := c.set_subtract true
      let c := c.set_carry (decide (a < cmp))
      .ok (.Add 1) c
  | .CompareMemHlA =>
    let (position, c) := c.r16 .HL
    let (cmp, c) := c.busFetch position
    let (a, c) := c.r8 .A
    let c := c.set_zero (a == cmp)
    let c := c.set_half_carry_sub a cmp
    let c := c.set_subtract true
    let c := c.set_carry (decide (a < cmp))
    .ok (.Add 1) c
  | .ReturnIfFlag =>
    let condFlag : Cpu → Option Bool × Cpu := fun c =>
      match n0, n1 with
      | 0xC, 0x0 => let (z, c) := c.zero_flag; (some (!z), c)
      | 0xD, 0x0 => let (cf, c) := c.carry_flag; (some (!cf), c)
      | 0xC, 0x8 => let (z, c) := c.zero_flag; (some z, c)
      | 0xD, 0x8 => let (cf, c) := c.carry_flag; (some cf, c)
      | _, _ => (none, c)
    let (should_return, c) := condFlag c
    match should_return with
    | none => .panicked c
    | some b =>
      if b then
        let (sp, c) := c.r16 .SP
        let (lower, c) := c.busFetch sp
        let (upper, c) := c.busFetch ((sp + 1) % 65536)
        let c := c.w16 .SP ((sp + 2) % 65536)
        .ok (.To (lower + 256 * upper)) c
      else .ok (.Add 1) c
  | .Pop16 =>
    let toOpt : Option V16 :=
      match n0 with
      | 0xC => some .BC
      | 0xD => some .DE
      | 0xE => some .HL
      | 0xF => some .AF
      | _ => none
    match toOpt with
    | none => .panicked c
    | some toReg =>
      let (sp, c) := c.r16 .SP
      let (lower, c) := c.busFetch sp
      let (upper, c) := c.busFetch ((sp + 1) % 65536)
      let c := c.w16 toReg (lower + 256 * upper)
      let c := c.w16 .SP ((sp + 2) % 65536)
      .ok (.Add 1) c
  | .JumpIfFlag =>
    let (addr, c) := c.next_word
    let condFlag : Cpu → Option Bool × Cpu := fun c =>
      match n0, n1 with
      | 0xC, 0x2 => let (z, c) := c.zero_flag; (some (!z), c)
      | 0xC, 0xA => let (z, c) := c.zero_flag; (some z, c)
      | 0xD, 0x2 => let (cf, c) := c.carry_flag; (some (!cf), c)
      | 0xD, 0xA => let (cf, c) := c.carry_flag; (some cf, c)
      | _, _ => (none, c)
    let (should_jump, c) := condFlag c
    match should_jump with
    | none => .panicked c
    | some b => if b then .ok (.To addr) c else .ok (.Add 1) c
  | .Jump16 =>
    match n1 with
    | 3 =>
      let (addr, c) := c.next_word
      .ok (.To addr) c
    | 9 =>
      let (addr, c) := c.r16 .HL
      .ok (.To addr) c
    | _ => .panicked c
  | .CallIfFlag =>
    let (addr, c) := c.next_word
    let condFlag : Cpu → Option Bool × Cpu := fun c =>
      match n0, n1 with
      | 0xC, 0x4 => let (z, c) := c.zero_flag; (some (!z), c)
      | 0xC, 0xC => let (z, c) := c.zero_flag; (some z, c)
      | 0xD, 0x4 => let (cf, c) := c.carry_flag; (some (!cf), c)
      | 0xD, 0xC => let (cf, c) := c.carry_flag; (some cf, c)
      | _, _ => (none, c)
    let (should_call, c) := condFlag c
    match should_call with
    | none => .panicked c
    | some b =>
      if b then
        let (pcv, c) := c.r16 .PC
        let (sp, c) := c.r16 .SP
        let c := c.w16 .SP ((sp + 65534) % 65536)
        let c := c.write_mem16_raw ((sp + 65534) % 65536) (leftByte pcv)
        let c := c.write_mem16_raw ((sp + 65535) % 65536) (rightByte pcv)
        .ok (.To addr) c
      else .ok (.Add 1) c
  | .Push16 =>
    let regOpt : Option V16 :=
      match n0 with
      | 0xC => some .BC
      | 0xD => some .DE
      | 0xE => some .HL
      | 0xF => some .AF
      | _ => none
    match regOpt with
    | none => .panicked c
    | some reg =>
      let (content, c) := c.r16 reg
      let (sp, c) := c.r16 .SP
      let c := c.write_mem16_raw ((sp + 65534) % 65536) (leftByte content)
      let c := c.write_mem16_raw ((sp + 65535) % 65536) (rightByte content)
      let c := c.w16 .SP ((sp + 65534) % 65536)
      .ok (.Add 1) c
  | .Add8ImmToA =>
    let (add, c) := c.next_byte
    let (a, c) := c.r8 .A
    let res := (a + add) % 256
    let c := c.set_carry (decide (256 ≤ a + add))
    let c := c.set_zero (res == 0)
    let c := c.set_subtract false
    let c := c.set_half_carry_add a add
    let c := c.w8 .A res
    .ok (.Add 1) c
  | .Sub8ImmToA =>
    let (sub, c) := c.next_byte
    let (a, c) := c.r8 .A
    let res := (a + 256 - sub % 256) % 256
    let c := c.set_carry (decide (a < sub))
    let c := c.set_zero (res == 0)
    let c := c.set_subtract true
    let c := c.set_half_carry_sub a sub
    .ok (.Add 1) c
  | .And8ImmToA =>
    let (sec, c) := c.next_byte
    let (a, c) := c.r8 .A
    let res := a &&& sec
    let c := c.set_zero (res == 0)
    let c := c.set_subtract false
    let c := c.set_half_carry true
    let c := c.set_carry false
    let c := c.w8 .A res
    .ok (.Add 1) c
  | .Or8ImmToA =>
    let (orv, c) := c.next_byte
    let (a, c) := c.r8 .A
    let res := a ||| orv
    let c := c.set_zero (res == 0)
    let c := c.set_subtract false
    let c := c.set_half_carry false
    let c := c.set_carry false
    let c := c.w8 .A res
    .ok (.Add 1) c
  | .CallN =>
    let (content, c) := c.r16 .PC
    let (sp, c) := c.r16 .SP
    let c := c.write_mem16_raw ((sp + 65534) % 65536) (leftByte content)
    let c := c.write_mem16_raw ((sp + 65535) % 65536) (rightByte content)
    let c := c.w16 .SP ((sp + 65534) % 65536)
    let destOpt : Option Nat :=
      match n0, n1 with
      | 0xC, 0x7 => some 0x00
      | 0xD, 0x7 => some 0x10
      | 0xE, 0x7 => some 0x20
      | 0xF, 0x7 => some 0x30
      | 0xC, 0xF => some 0x08
      | 0xD, 0xF => some 0x18
      | 0xE, 0xF => some 0x28
      | 0xF, 0xF => some 0x38
      | _, _ => none
    match destOpt with
    | none => .panicked c
    | some dest => .ok (.To dest) c
  | .Return =>
    let (sp, c) := c.r16 .SP
    let (lower, c) := c.busFetch sp
    let (upper, c) := c.busFetch ((sp + 1) % 65536)
    let c := c.w16 .SP ((sp + 2) % 65536)
    .ok (.To (lower + 256 * upper)) c
  | .ReturnInterrupt => .panicked c
  | .Call =>
    let (new_pc, c) := c.next_word
    let (position, c) := c.pc
    let (sp, c) := c.r16 .SP
    let c := c.write_mem16_raw ((sp + 65534) % 65536) (leftByte position)
    let c := c.write_mem16_raw ((sp + 65535) % 65536) (rightByte position)
    let c := c.w16 .SP ((sp + 65534) % 65536)
    .ok (.To new_pc) c
  | .AddImmAndFlagToA =>
    let (add, c) := c.next_byte
    let (cf, c) := c.carry_flag
    let carry := if cf then 1 else 0
    let (a, c) := c.r8 .A
    let temp := (a + add) % 256
    let res := (temp + carry) % 256
    let c := c.set_carry (decide (256 ≤ a + add) || decide (256 ≤ temp + carry))
    let c := c.set_zero (res == 0)
    let c := c.set_subtract false
    let c := c.set_half_carry_add a ((add + carry) % 256)
    let c := c.w8 .A res
    .ok (.Add 1) c
  | .SubImmAndFlagToA =>
    let (sub, c) := c.next_byte
    let (cf, c) := c.carry_flag
    let carry := if cf then 1 else 0
    let (a, c) := c.r8 .A
    let temp := (a + 256 - sub % 256) % 256
    let res := (temp + 256 - carry) % 256
    let c := c.set_carry (decide (a < sub) || decide (temp < carry))
    let c := c.set_zero (res == 0)
    let c := c.set_subtract true
    let c := c.set_half_carry_sub a ((sub + carry) % 256)
    let c := c.w8 .A res
    .ok (.Add 1) c
  | .XorImmToA =>
    let (xor, c) := c.next_byte
    let (a, c) := c.r8 .A
    let res := a ^^^ xor
    let c := c.set_carry false
    let c := c.set_zero (res == 0)
    let c := c.set_subtract false
    let c := c.set_half_carry false
    let c := c.w8 .A res
    .ok (.Add 1) c
  | .CompareImmToA =>
    let (cmp, c) := c.next_byte
    let (a, c) := c.r8 .A
    let c := c.set_zero (a == cmp)
    let c := c.set_half_carry_sub a cmp
    let c := c.set_carry (decide (a < cmp))
    let c := c.set_subtract true
    .ok (.Add 1) c
  | .StoreAToIoImm => .panicked c
  | .ReadAFromIoImm =>
    let lower := 0xff
    let (upper, c) := c.next_byte
    let (content, c) := c.busFetch (lower + 256 * upper)
    let c := c.w8 .A content
    .ok (.Add 1) c
  | .StoreAToIoC => .panicked c
  | .ReadAFromIoC =>
    let lower := 0xff
    let (upper, c) := c.r8 .C
    let (content, c) := c.busFetch (lower + 256 * upper)
    let c := c.w8 .A content
    .ok (.Add 1) c
  | .DisableInterrupts => .panicked c
  | .AddImmAsSignedToSp => .panicked c
  | .StoreAinMemHl =>
    let c := c.write_mem8 .HL .A
    .ok (.Add 1) c
  | .LoadAfromMemHl =>
    let (hl, c) := c.r16 .HL
    let (content, c) := c.busFetch hl
    let c := c.w8 .A content
    .ok (.Add 1) c
  | .LoadSignedImmPlusSpInHl => .panicked c
  | .LoadHlinSp => .panicked c
  | .EnableInterrupts => .panicked c
  | .TwoByteInstruction => .panicked c

/-- Modelled from the spec: the decoder (`Instruction::from` of the missing
instruction.rs module), transcribed from the opcode table of spec section
4.2. Specific opcodes (HL-indirect forms, Halt) are tested before the block
ranges that surround them. Opcode bytes the table does not map yield `none`
(a DecoderGap). -/
def decode (op : Nat) : Option Instruction :=
  if op = 0x00 then some .Nop
  else if op = 0x01 ∨ op = 0x11 ∨ op = 0x21 ∨ op = 0x31 then some .Load16Mem
  else if op = 0x02 ∨ op = 0x12 then some .Store8Mem
  else if op = 0x03 ∨ op = 0x13 ∨ op = 0x23 ∨ op = 0x33 then some .Increment16
  else if op = 0x04 ∨ op = 0x14 ∨ op = 0x24 ∨ op = 0x0C ∨ op = 0x1C ∨ op = 0x2C ∨ op = 0x3C then
    some .Increment8
  else if op = 0x34 then some .IncMemHl
  else if op = 0x05 ∨ op = 0x15 ∨ op = 0x25 ∨ op = 0x0D ∨ op = 0x1D ∨ op = 0x2D ∨ op = 0x3D then
    some .Decrement8
  else if op = 0x35 then some .DecMemHl
  else if op = 0x06 ∨ op = 0x16 ∨ op = 0x26 ∨ op = 0x0E ∨ op = 0x1E ∨ op = 0x2E ∨ op = 0x3E then
    some .Load8Mem
  else if op = 0x36 then some .StoreXMemHl
  else if op = 0x07 then some .RotateLeftCircle
  else if op = 0x0F then some .RotateRightCircle
  else if op = 0x17 then some .RotateLeft
  else if op = 0x1F then some .RotateRight
  else if op = 0x08 then some .StoreSP
  else if op = 0x09 ∨ op = 0x19 ∨ op = 0x29 ∨ op = 0x39 then some .Add16toHL
  else if op = 0x0A ∨ op = 0x1A then some .Load16Meminto8
  else if op = 0x0B ∨ op = 0x1B ∨ op = 0x2B ∨ op = 0x3B then some .Decrement16
  else if op = 0x10 then some .Stop
  else if op = 0x18 ∨ op = 0x20 ∨ op = 0x28 ∨ op = 0x30 ∨ op = 0x38 then some .JumpRelative
  else if op = 0x22 then some .StoreHlIncr
  else if op = 0x32 then some .StoreHlDecr
  else if op = 0x27 then some .Daa
  else if op = 0x2F then some .ComplementA
  else if op = 0x2A then some .Load8MemHlIncr
  else if op = 0x3A then some .Load8MemHlDecr
  else if op = 0x37 then some .SetCarryFlag
  else if op = 0x3F then some .FlipCarryFlag
  else if op = 0x76 then some .Halt
  else if op = 0x46 ∨ op = 0x4E ∨ op = 0x56 ∨ op = 0x5E ∨ op = 0x66 ∨ op = 0x6E ∨ op = 0x7E then
    some .Load16Meminto8
  else if 0x70 ≤ op ∧ op ≤ 0x77 then some .Store8Mem
  else if 0x40 ≤ op ∧ op ≤ 0x7F then some .Load8into8
  else if op = 0x86 then some .AddMemToA
  else if 0x80 ≤ op ∧ op ≤ 0x87 then some .Add8toA
  else if op = 0x8E then some .AddMemHlAndFlagToA
  else if 0x88 ≤ op ∧ op ≤ 0x8F then some .Add8AndFlagToA
  else if op = 0x96 then some .SubMemToA
  else if 0x90 ≤ op ∧ op ≤ 0x97 then some .Sub8fromA
  else if op = 0x9E then some .SubMemHlAndFlagToA
  else if 0x98 ≤ op ∧ op ≤ 0x9F then some .Sub8AndFlagToA
  else if op = 0xA6 then some .AndMemHlA
  else if 0xA0 ≤ op ∧ op ≤ 0xA7 then some .And8A
  else if op = 0xAE then some .XorMemHlA
  else if 0xA8 ≤ op ∧ op ≤ 0xAF then some .Xor8A
  else if op = 0xB6 then some .OrMemHlA
  else if 0xB0 ≤ op ∧ op ≤ 0xB7 then some .Or8A
  else if op = 0xBE then some .CompareMemHlA
  else if 0xB8 ≤ op ∧ op ≤ 0xBF then some .Compare8A
  else if op = 0xC0 ∨ op = 0xC8 ∨ op = 0xD0 ∨ op = 0xD8 then some .ReturnIfFlag
  else if op = 0xC1 ∨ op = 0xD1 ∨ op = 0xE1 ∨ op = 0xF1 then some .Pop16
  else if op = 0xC2 ∨ op = 0xCA ∨ op = 0xD2 ∨ op = 0xDA then some .JumpIfFlag
  else if op = 0xC3 ∨ op = 0xE9 then some .Jump16
  else if op = 0xC4 ∨ op = 0xCC ∨ op = 0xD4 ∨ op = 0xDC then some .CallIfFlag
  else if op = 0xC5 ∨ op = 0xD5 ∨ op = 0xE5 ∨ op = 0xF5 then some .Push16
  else if op = 0xC6 then some .Add8ImmToA
  else if op = 0xD6 then some .Sub8ImmToA
  else if op = 0xE6 then some .And8ImmToA
  else if op = 0xF6 then some .Or8ImmToA
  else if op = 0xCE then some .AddImmAndFlagToA
  else if op = 0xDE then some .SubImmAndFlagToA
  else if op = 0xEE then some .XorImmToA
  else if op = 0xFE then some .CompareImmToA
  else if op = 0xC7 ∨ op = 0xD7 ∨ op = 0xE7 ∨ op = 0xF7 ∨
          op = 0xCF ∨ op = 0xDF ∨ op = 0xEF ∨ op = 0xFF then some .CallN
  else if op = 0xC9 then some .Return
  else if op = 0xD9 then some .ReturnInterrupt
  else if op = 0xCB then some .TwoByteInstruction
  else if op = 0xCD then some .Call
  else if op = 0xE0 then some .StoreAToIoImm
  else if op = 0xF0 then some .ReadAFromIoImm
  else if op = 0xE2 then some .StoreAToIoC
  else if op = 0xF2 then some .ReadAFromIoC
  else if op = 0xE8 then some .AddImmAsSignedToSp
  else if op = 0xF8 then some .LoadSignedImmPlusSpInHl
  else if op = 0xF9 then some .LoadHlinSp
  else if op = 0xF3 then some .DisableInterrupts
  else if op = 0xFB then some .EnableInterrupts
  else none

/-- Result of one `Cpu::step`: the returned cycle count with the new state,
or a Rust panic carrying the state at the panic point. -/
inductive StepResult
  | ok : Nat → Cpu → StepResult
  | panicked : Cpu → StepResult

/-- State component of a step result. -/
def StepResult.state : StepResult → Cpu
  | .ok _ c => c
  | .panicked c => c

/-- Cycle count returned by a step (0 for a panic, which never returns). -/
def StepResult.cyclesRet : StepResult → Nat
  | .ok n _ => n
  | .panicked _ => 0

/-- True when the step ended in a panic. -/
def StepResult.isPanic : StepResult → Bool
  | .ok _ _ => false
  | .panicked _ => true

/-- Holds when an ok step returned exactly the final cycle counter (a panic
never returns, so it imposes nothing). -/
def StepResult.returnsAccumulated : StepResult → Prop
  | .ok n c => n = c.cycles
  | .panicked _ => True

/-- `Cpu::step`: a no-op returning 0 when the mode is not Run; otherwise
reset the cycle counter (the ghost instrumentation counters are reset with
it), read PC, fetch the opcode (`Bus::fetch_op` is `Bus::fetch`), decode,
execute, and commit PC via the returned address move. A decoder gap is
surfaced as a failure, per the error taxonomy of the spec. -/
def Cpu.step (c : Cpu) : StepResult :=
  if c.mode ≠ CpuMode.Run then .ok 0 c
  else
    let c := { c with cycles := 0, regR := 0, regW := 0, memR := 0, memW := 0 }
    let (pcv, c) := c.pc
    let (op, c) := c.busFetch pcv
    match decode op with
    | none => .panicked c
    | some instruction =>
      match c.execute instruction op with
      | .panicked c2 => .panicked c2
      | .ok address_move c2 =>
        let c3 := c2.w16 .PC (address_move.apply pcv)
        .ok c3.cycles c3

/-- All-zero machine: registers and RAM zeroed, mode Run, counters zero. -/
def cpu0 : Cpu :=
  { regs := fun _ => 0, mem := fun _ => 0, cycles := 0, mode := .Run,
    regR := 0, regW := 0, memR := 0, memW := 0 }

/-- Machine with A=0x0F, B=0x01, F=0, SP=0xFFFE and opcode 0x80 (Add A,B)
at PC=0. In this embedding A is the low byte of cell 3 and B the low byte
of cell 0. -/
def addState : Cpu :=
  { cpu0 with
    regs := fun j => if j = 0 then 0x01 else if j = 3 then 0x0F else
      if j = 5 then 0xFFFE else 0,
    mem := fun a => if a = 0 then 0x80 else 0 }

/-- Machine with F.Z=0 and the bytes 20 05 (JR NZ, +5) at PC=0x100. -/
def jrState : Cpu :=
  { cpu0 with
    regs := fun j => if j = 4 then 0x100 else 0,
    mem := fun a => if a = 0x100 then 0x20 else if a = 0x101 then 0x05 else 0 }

/-- Machine with SP=0xFFFE, the bytes CD 34 12 (Call 0x1234) at PC=0x100,
and a Return opcode 0xC9 placed at 0xCDCD, the address the embedded Call
actually jumps to. -/
def callState : Cpu :=
  { cpu0 with
    regs := fun j => if j = 4 then 0x100 else if j = 5 then 0xFFFE else 0,
    mem := fun a => if a = 0x100 then 0xCD else if a = 0x101 then 0x34 else
      if a = 0x102 then 0x12 else if a = 0xCDCD then 0xC9 else 0 }

/-- Machine with SP=0x10, opcode 0xF1 (Pop AF) at PC=0, and stack bytes
mem[0x10]=0xAB, mem[0x11]=0xFF. -/
def popAfState : Cpu :=
  { cpu0 with
    regs := fun j => if j = 5 then 0x10 else 0,
    mem := fun a => if a = 0 then 0xF1 else if a = 0x10 then 0xAB else
      if a = 0x11 then 0xFF else 0 }

/-- Machine with the bytes 01 34 12 (LD BC, 0x1234) at PC=0. -/
def ldBcState : Cpu :=
  { cpu0 with
    mem := fun a => if a = 0 then 0x01 else if a = 1 then 0x34 else
      if a = 2 then 0x12 else 0 }

/-- Machine with the bytes 06 2A (LD B, 0x2A) at PC=0. -/
def ldB6State : Cpu :=
  { cpu0 with mem := fun a => if a = 0 then 0x06 else if a = 1 then 0x2A else 0 }

/-- Machine with the Halt opcode 0x76 at PC=0. -/
def haltState : Cpu :=
  { cpu0 with mem := fun a => if a = 0 then 0x76 else 0 }

/-- The state produced by the Push16 arm of the executor for stack register
`reg`: two raw stack writes at SP-2 and SP-1, then SP is lowered by 2. -/
def pushResult (c : Cpu) (reg : V16) : Cpu :=
  let (content, c) := c.r16 reg
  let (sp, c) := c.r16 .SP
  let c := c.write_mem16_raw ((sp + 65534) % 65536) (leftByte content)
  let c := c.write_mem16_raw ((sp + 65535) % 65536) (rightByte content)
  c.w16 .SP ((sp + 65534) % 65536)

/-- The state produced by the Pop16 arm of the executor for stack register
`toReg`: two stack reads, the composed word written to the register, then
SP raised by 2. No masking is applied to the popped bytes. -/
def popResult (c : Cpu) (toReg : V16) : Cpu :=
  let (sp, c) := c.r16 .SP
  let (lower, c) := c.busFetch sp
  let (upper, c) := c.busFetch ((sp + 1) % 65536)
  let c := c.w16 toReg (lower + 256 * upper)
  c.w16 .SP ((sp + 2) % 65536)

/-- The four stack-family register pairs in opcode order: BC, DE, HL, AF. -/
def stackPair : Fin 4 → V16
  | 0 => .BC
  | 1 => .DE
  | 2 => .HL
  | 3 => .AF

/-- Push opcode of the p-th stack pair: C5, D5, E5, F5. -/
def pushOpcode (p : Fin 4) : Nat := 0xC5 + 16 * p.val

/-- Pop opcode of the p-th stack pair: C1, D1, E1, F1. -/
def popOpcode (p : Fin 4) : Nat := 0xC1 + 16 * p.val

/-- State after executing Push of the p-th stack pair and then Pop of the
same pair, at the executor level. -/
def afterPushPop (c : Cpu) (p : Fin 4) : Cpu :=
  (((c.execute .Push16 (pushOpcode p)).state).execute .Pop16 (popOpcode p)).state

/-- The state reached inside `Cpu::step` right after the counter reset, the
PC read and the opcode fetch: one cycle charged for the PC register read,
one ghost memory read for the opcode fetch, registers and RAM untouched. -/
def stepPre (c : Cpu) : Cpu :=
  { c with cycles := 1, regR := 1, regW := 0, memR := 1, memW := 0 }

/-- Opcodes whose executor arm in cpu.rs is a bare `todo!()`: Stop (10),
Halt (76), the CB prefix, RETI (D9), the IO-page stores (E0, E2), the SP
arithmetic group (E8, F8, F9) and interrupt disable/enable (F3, FB). -/
def isStubOp (op : Nat) : Prop :=
  op = 0x10 ∨ op = 0x76 ∨ op = 0xCB ∨ op = 0xD9 ∨ op = 0xE0 ∨ op = 0xE2 ∨
  op = 0xE8 ∨ op = 0xF3 ∨ op = 0xF8 ∨ op = 0xF9 ∨ op = 0xFB

instance (op : Nat) : Decidable (isStubOp op) := by
  unfold isStubOp
  infer_instance

theorem execute_push_C5 (c : Cpu) :
    c.execute .Push16 0xC5 = .ok (.Add 1) (pushResult c .BC) := rfl

theorem execute_push_D5 (c : Cpu) :
    c.execute .Push16 0xD5 = .ok (.Add 1) (pushResult c .DE) := rfl

theorem execute_push_E5 (c : Cpu) :
    c.execute .Push16 0xE5 = .ok (.Add 1) (pushResult c .HL) := rfl

theorem execute_push_F5 (c : Cpu) :
    c.execute .Push16 0xF5 = .ok (.Add 1) (pushResult c .AF) := rfl

theorem execute_pop_C1 (c : Cpu) :
    c.execute .Pop16 0xC1 = .ok (.Add 1) (popResult c .BC) := rfl

theorem execute_pop_D1 (c : Cpu) :
    c.execute .Pop16 0xD1 = .ok (.Add 1) (popResult c .DE) := rfl

theorem execute_pop_E1 (c : Cpu) :
    c.execute .Pop16 0xE1 = .ok (.Add 1) (popResult c .HL) := rfl

theorem execute_pop_F1 (c : Cpu) :
    c.execute .Pop16 0xF1 = .ok (.Add 1) (popResult c .AF) := rfl

theorem pushResult_regs (c : Cpu) (reg : V16) :
    (pushResult c reg).regs = fun j =>
      if j = 5 then (c.regs 5 % 65536 + 65534) % 65536 % 65536
      else c.regs j := rfl

theorem pushResult_mem (c : Cpu) (reg : V16) :
    (pushResult c reg).mem = fun x =>
      if x = (c.regs 5 % 65536 + 65535) % 65536 then c.regs reg.cell % 65536 / 256 % 256 % 256
      else if x = (c.regs 5 % 65536 + 65534) % 65536 then c.regs reg.cell % 65536 % 256 % 256
      else c.mem x := rfl

theorem popResult_regs (c : Cpu) (toReg : V16) :
    (popResult c toReg).regs = fun j =>
      if j = 5 then (c.regs 5 % 65536 + 2) % 65536 % 65536
      else if j = toReg.cell then
        (c.mem (c.regs 5 % 65536) % 256 +
          256 * (c.mem ((c.regs 5 % 65536 + 1) % 65536) % 256)) % 65536
      else c.regs j := rfl

theorem push_pop_core (c : Cpu) (reg : V16) (h5 : reg.cell ≠ 5) :
    V16.read reg (popResult (pushResult c reg) reg) = V16.read reg c ∧
    V16.read V16.SP (popResult (pushResult c reg) reg) = V16.read V16.SP c := by
  rw [V16.read, V16.read, V16.read, V16.read, popResult_regs, pushResult_regs, pushResult_mem]
  beta_reduce
  simp only [V16.cell] at h5 ⊢
  constructor <;> split_ifs <;> omega

theorem pop_af_f_value (c : Cpu) :
    V8.read .F (popResult c .AF) = c.mem ((c.regs 5 % 65536 + 1) % 65536) % 256 := by
  have h : V8.read .F (popResult c .AF) = rightByte ((popResult c .AF).regs 3) := rfl
  rw [h, popResult_regs]
  beta_reduce
  simp only [V16.cell]
  rw [rightByte]
  split_ifs <;> omega

theorem step_run_form (c : Cpu) (h : c.mode = CpuMode.Run) :
    Cpu.step c =
      (match decode (c.mem (c.regs 4 % 65536) % 256) with
       | none => .panicked (stepPre c)
       | some instruction =>
         match (stepPre c).execute instruction (c.mem (c.regs 4 % 65536) % 256) with
         | .panicked c5 => .panicked c5
         | .ok am c5 =>
           .ok ((c5.w16 .PC (am.apply (c.regs 4 % 65536))).cycles)
             (c5.w16 .PC (am.apply (c.regs 4 % 65536)))) := by
  rw [Cpu.step, if_neg (by simp [h])]
  rfl

/-- Claim C1 (code bug evidence). The claim states that an 8-bit register
write disturbs only the addressed half of its own pair and no other
register cell. Evaluating the embedded register-file writer at the failing
input shows the opposite: writing 0x12 to D on the all-zero machine leaves
D (the low byte of cell 1) at 0 and cell 1 untouched, while cell 0 (the BC
pair) is overwritten with the composed DE value 0x12. -/
theorem v8_write_clobbers_bc_cell :
    V8.read V8.D (V8.write V8.D cpu0 0x12) = 0 ∧
    (V8.write V8.D cpu0 0x12).regs 1 = 0 ∧
    (V8.write V8.D cpu0 0x12).regs 0 = 0x12 := by decide

/-- Claim C2 (code bug evidence). The claim states that Add A,B with
A=0x0F, B=0x01, F=0 yields A=0x10 and F=0x20 (half-carry set, Z at bit 7).
Evaluating one embedded step at that input: A is left at 0x0F (the result
write lands in cell 0), F is left at 0x00 (the flag writes also land in
cell 0), the BC cell is trashed to 0x0010, and PC advances to 1. -/
theorem add_a_b_concrete_outcome :
    V8.read V8.A (Cpu.step addState).state = 0x0F ∧
    V8.read V8.F (Cpu.step addState).state = 0x00 ∧
    (Cpu.step addState).state.regs 0 = 0x10 ∧
    V16.read V16.PC (Cpu.step addState).state = 1 := by decide

/-- Claim C3 (code bug evidence). The claim states that a flag setter
forces the addressed flag bit to its boolean argument. Evaluating the
embedded set_carry on the all-zero machine: after set_carry true the F
register still reads 0 (the write lands in cell 0, where the computed
pattern 0x10 appears shifted into the high byte as 0x1000), and after
set_carry false the computed pattern has the carry bit SET (0 XOR 0x10),
again stored in cell 0 while F itself stays 0. -/
theorem set_carry_concrete_outcome :
    V8.read V8.F (cpu0.set_carry true) = 0 ∧
    (cpu0.set_carry true).regs 0 = 0x1000 ∧
    V8.read V8.F (cpu0.set_carry false) = 0 ∧
    (cpu0.set_carry false).regs 0 = 0x1000 := by decide

/-- Claim C4 (code bug evidence). The claim states that JR NZ with F.Z=0
and bytes 20 05 at PC=0x100 ends with PC=0x107. Evaluating one embedded
step: the displacement fetch reads the byte at the un-advanced PC, which is
the opcode 0x20 itself, it is zero-extended, and the +2 is omitted, so
PC becomes 0x100 + 0x20 = 0x120. -/
theorem jr_nz_concrete_outcome :
    V16.read V16.PC (Cpu.step jrState).state = 0x120 := by decide

/-- Claim C5 (code bug evidence). The claim states that Call 0x1234 at
PC=0x100 with SP=0xFFFE pushes the return address 0x0103 (low byte 0x03 at
0xFFFC) and jumps to 0x1234, and a subsequent Return restores PC=0x0103 and
SP=0xFFFE. Evaluating two embedded steps: the imm16 fetch reads the opcode
byte 0xCD twice (PC is never advanced), so the Call jumps to 0xCDCD and
pushes 0x0100, the address of the Call itself (bytes 00 01); the Return at
0xCDCD then restores PC=0x0100, not 0x0103. SP alone is restored. -/
theorem call_return_concrete_outcome :
    V16.read V16.PC (Cpu.step callState).state = 0xCDCD ∧
    (Cpu.step callState).state.mem 0xFFFC = 0x00 ∧
    (Cpu.step callState).state.mem 0xFFFD = 0x01 ∧
    V16.read V16.PC (Cpu.step (Cpu.step callState).state).state = 0x0100 ∧
    V16.read V16.SP (Cpu.step (Cpu.step callState).state).state = 0xFFFE := by decide

/-- Claim C6 counterexample. The claim states that after any Pop AF the low
nibble of F is zero regardless of the popped bytes. One embedded step of
Pop AF with SP=0x10 and mem[0x11]=0xFF leaves F=0xFF: the low nibble is
0xF, not zero, because the executor applies no masking. -/
theorem pop_af_keeps_low_nibble :
    ¬ (V8.read V8.F (Cpu.step popAfState).state % 16 = 0) := by decide

/-- Claim C6 as amended: for every starting state and each stack pair
(BC, DE, HL, AF), executing Push of that pair followed by Pop of the same
pair restores the pair exactly, with no masking of the low nibble of F on
AF, and restores SP; and after Pop AF the F register equals the unmasked
byte popped from mem[SP+1]. -/
theorem push_pop_restores (c : Cpu) (p : Fin 4) :
    V16.read (stackPair p) (afterPushPop c p) = V16.read (stackPair p) c ∧
    V16.read V16.SP (afterPushPop c p) = V16.read V16.SP c ∧
    V8.read V8.F ((c.execute .Pop16 0xF1).state) =
      c.mem ((c.regs 5 % 65536 + 1) % 65536) % 256 := by
  have hf : V8.read V8.F ((c.execute .Pop16 0xF1).state) =
      c.mem ((c.regs 5 % 65536 + 1) % 65536) % 256 := by
    rw [execute_pop_F1]
    exact pop_af_f_value c
  fin_cases p
  · have hc := push_pop_core c .BC (by decide)
    exact ⟨hc.1, hc.2, hf⟩
  · have hc := push_pop_core c .DE (by decide)
    exact ⟨hc.1, hc.2, hf⟩
  · have hc := push_pop_core c .HL (by decide)
    exact ⟨hc.1, hc.2, hf⟩
  · have hc := push_pop_core c .AF (by decide)
    exact ⟨hc.1, hc.2, hf⟩

/-- Claim C7 (code bug evidence). The claim states that LD BC,imm16 with
bytes 01 34 12 at PC=0 leaves BC=0x1234, PC=3, F unchanged. Evaluating one
embedded step: the imm16 fetch reads the opcode byte 0x01 twice (PC is
never advanced), so BC becomes 0x0101; PC=3 and F=0 do hold. -/
theorem ld_bc_imm_concrete_outcome :
    V16.read V16.BC (Cpu.step ldBcState).state = 0x0101 ∧
    V16.read V16.PC (Cpu.step ldBcState).state = 3 ∧
    V8.read V8.F (Cpu.step ldBcState).state = 0 := by decide

/-- Claim C8 counterexample. The claim states that every memory read and
memory write also increments the cycle counter by one, and that step
returns the sum of all register and memory charges. One embedded step of
LD B,imm8 makes 2 register reads, 2 register writes, 2 memory reads and 0
memory writes, yet returns 4 cycles, not 6: memory accesses charge
nothing. -/
theorem step_ignores_memory_charges :
    (Cpu.step ldB6State).cyclesRet = 4 ∧
    (Cpu.step ldB6State).state.regR + (Cpu.step ldB6State).state.regW = 4 ∧
    (Cpu.step ldB6State).state.memR + (Cpu.step ldB6State).state.memW = 2 ∧
    ¬ ((Cpu.step ldB6State).cyclesRet =
        (Cpu.step ldB6State).state.regR + (Cpu.step ldB6State).state.regW +
        (Cpu.step ldB6State).state.memR + (Cpu.step ldB6State).state.memW) := by decide

/-- Claim C8 as amended: every architectural register read and register
write through the r/w accessors increments the cycle counter by exactly
one (and bumps the matching ghost access counter); bus memory reads and
writes leave the cycle counter unchanged (bumping only their ghost
counters); decoding is a pure function that charges nothing; and a step in
Run mode returns exactly the cycle counter it accumulated from those
charges, deterministically. -/
theorem cycle_accounting (c : Cpu) (h : c.mode = CpuMode.Run) :
    (∀ reg : V8, (c.r8 reg).2.cycles = c.cycles + 1 ∧ (c.r8 reg).2.regR = c.regR + 1) ∧
    (∀ reg : V16, (c.r16 reg).2.cycles = c.cycles + 1 ∧ (c.r16 reg).2.regR = c.regR + 1) ∧
    (∀ (reg : V8) (v : Nat), (c.w8 reg v).cycles = c.cycles + 1 ∧ (c.w8 reg v).regW = c.regW + 1) ∧
    (∀ (reg : V16) (v : Nat), (c.w16 reg v).cycles = c.cycles + 1 ∧ (c.w16 reg v).regW = c.regW + 1) ∧
    (∀ a : Nat, (c.busFetch a).2.cycles = c.cycles ∧ (c.busFetch a).2.memR = c.memR + 1) ∧
    (∀ a v : Nat, (c.busWrite a v).cycles = c.cycles ∧ (c.busWrite a v).memW = c.memW + 1) ∧
    (Cpu.step c).returnsAccumulated := by
  refine ⟨fun reg => ⟨rfl, rfl⟩, fun reg => ⟨rfl, rfl⟩,
    fun reg v => by cases reg <;> exact ⟨rfl, rfl⟩,
    fun reg v => by cases reg <;> exact ⟨rfl, rfl⟩,
    fun a => ⟨rfl, rfl⟩, fun a v => ⟨rfl, rfl⟩, ?_⟩
  rw [step_run_form c h]
  split
  · trivial
  · split
    · trivial
    · rfl

/-- Witness for the amended claim C8, at the all-zero Run-mode machine. -/
theorem cycle_accounting_witness :
    ((cpu0.r8 V8.A).2.cycles = cpu0.cycles + 1 ∧ (cpu0.r8 V8.A).2.regR = cpu0.regR + 1) ∧
    ((cpu0.busFetch 0).2.cycles = cpu0.cycles ∧ (cpu0.busFetch 0).2.memR = cpu0.memR + 1) ∧
    (Cpu.step cpu0).returnsAccumulated :=
  have h := cycle_accounting cpu0 rfl
  ⟨h.1 V8.A, h.2.2.2.2.1 0, h.2.2.2.2.2.2⟩

/-- Claim C9 counterexample. The claim states that executing an opcode
whose executor case is unimplemented produces an explicit typed failure
surfaced to the driver and that steady-state execution never panics. One
embedded step on the Halt opcode 0x76 ends in the panicked outcome, which
models the todo macro of the source aborting the process: execution does
panic instead of returning a typed failure. -/
theorem halt_opcode_panics :
    (Cpu.step haltState).isPanic = true := by decide

/-- Claim C9 as amended: for every Run-mode state whose fetched opcode is
one of the stubbed ones (Halt, Stop, the CB prefix, RETI, the IO-page
stores E0/E2, the SP-arithmetic group E8/F8/F9, and interrupt
disable/enable F3/FB), the step aborts with a panic modelling the todo
macro, and no register cell and no memory byte has been modified at the
panic point; the panic aborts execution rather than surfacing a typed
failure. -/
theorem stub_opcodes_panic_without_side_effects (c : Cpu) (h : c.mode = CpuMode.Run)
    (hop : isStubOp (c.mem (c.regs 4 % 65536) % 256)) :
    (Cpu.step c).isPanic = true ∧
    (Cpu.step c).state.regs = c.regs ∧
    (Cpu.step c).state.mem = c.mem := by
  unfold isStubOp at hop
  rcases hop with h1 | h1 | h1 | h1 | h1 | h1 | h1 | h1 | h1 | h1 | h1 <;>
  · rw [step_run_form c h, h1]
    exact ⟨rfl, rfl, rfl⟩

/-- Witness for the amended claim C9, at the machine with Halt at PC=0. -/
theorem stub_opcodes_panic_without_side_effects_witness :
    (Cpu.step haltState).isPanic = true ∧
    (Cpu.step haltState).state.regs = haltState.regs ∧
    (Cpu.step haltState).state.mem = haltState.mem :=
  stub_opcodes_panic_without_side_effects haltState rfl (by decide)

/-- Claim C10: for every 8-bit register name and every written value, the
register-file 8-bit writer stores the composed 16-bit result (the value
composed with the complementary half of the pair the name belongs to,
as produced by the 8-bit reader) into register cell 0, the BC cell, and
register cells other than 0 (in particular 1 through 5: DE, HL, AF, PC,
SP) are never modified. -/
theorem v8_write_targets_cell_zero (r : V8) (v : Nat) (c : Cpu) :
    (V8.write r c v).regs 0 =
      (match r with
       | .B => v % 256 + 256 * V8.read .C c
       | .C => V8.read .B c + 256 * (v % 256)
       | .D => v % 256 + 256 * V8.read .E c
       | .E => V8.read .D c + 256 * (v % 256)
       | .H => v % 256 + 256 * V8.read .L c
       | .L => V8.read .H c + 256 * (v % 256)
       | .A => v % 256 + 256 * V8.read .F c
       | .F => V8.read .A c + 256 * (v % 256)) ∧
    ∀ i : Nat, i ≠ 0 → (V8.write r c v).regs i = c.regs i := by
  cases r <;>
    exact ⟨rfl, fun i hi => by
      simp only [V8.write, updReg]
      rw [if_neg hi]⟩

/-- Witness for claim C10: writing 18 to D on the all-zero machine stores
18 into cell 0 and leaves cell 1 unchanged. -/
theorem v8_write_targets_cell_zero_witness :
    (V8.write V8.D cpu0 18).regs 0 = 18 % 256 + 256 * V8.read V8.E cpu0 ∧
    (V8.write V8.D cpu0 18).regs 1 = cpu0.regs 1 :=
  ⟨(v8_write_targets_cell_zero V8.D 18 cpu0).1,
   (v8_write_targets_cell_zero V8.D 18 cpu0).2 1 (by decide)⟩
